import Mathlib

/-!
A verification development for the docstring checker in
`src/pydoclint/visitor.py`.  The visitor itself (class `Visitor`) is embedded
faithfully below; its collaborators that live outside the given sources
(`pydoclint/arg.py`, `pydoclint/violation.py`, `pydoclint/method_type.py`,
`pydoclint/utils/generic.py`, `pydoclint/utils/return_yield_raise.py`, and the
external `numpydoc` parser) are modelled from the specification, as marked on
each definition.  AST-level predicate extractors (`hasReturnStatements`,
`hasReturnAnnotation`, `hasGeneratorAsReturnAnnotation`, `hasYieldStatements`,
`hasRaiseStatements`) are total boolean functions of the function node, so they
appear as boolean fields of the embedded function-definition record.
-/

/-- Modelled from the spec: `pydoclint/violation.py` is not among the sources.
A diagnostic record: numeric `code`, 1-based source `line`, message prefix
identifying the definition, optional message suffix (default empty).
Immutable once constructed. -/
structure Violation where
  code : Nat
  line : Nat
  msgPrefix : String
  msgPostfix : String := ""
  deriving DecidableEq

/-- Modelled from the spec: `pydoclint/arg.py` is not among the sources.
One parameter: `name` (never empty in well-formed input), `typeHint`
(empty string models an absent annotation), `defaultValue` (informational
only, never compared). -/
structure Arg where
  name : String
  typeHint : String
  defaultValue : String := ""
  deriving DecidableEq

/-- Modelled from the spec: Arg equality under the `checkTypeHint` mode flag.
If the flag is true, equality requires a matching `typeHint`; if false, the
`typeHint` is ignored.  `defaultValue` is never compared. -/
def Arg.argEq (checkTypeHint : Bool) (a b : Arg) : Bool :=
  a.name == b.name && (!checkTypeHint || a.typeHint == b.typeHint)

/-- Modelled from the spec: the name-plus-typehint identity used by the
set-difference operation (`subtract`). -/
def Arg.sameNameAndHint (a b : Arg) : Bool :=
  a.name == b.name && a.typeHint == b.typeHint

/-- Modelled from the spec: the ordering of Args by `name`, then `typeHint`,
used only to render the code-103 diagnostic deterministically. -/
def Arg.argLt (a b : Arg) : Bool :=
  decide (a.name < b.name) || (a.name == b.name && decide (a.typeHint < b.typeHint))

/-- Rendering of one Arg inside the code-103 message. -/
def Arg.render (a : Arg) : String :=
  a.name ++ ": " ++ a.typeHint

/-- Insertion step of the sort used for the code-103 message. -/
def insertArg (a : Arg) : List Arg → List Arg
  | [] => [a]
  | b :: bs => if Arg.argLt b a then b :: insertArg a bs else a :: b :: bs

/-- Sorting (by name, then typehint) used for the code-103 message. -/
def sortArgs (xs : List Arg) : List Arg :=
  xs.foldr insertArg []

/-- Rendering of a set of Args, sorted for determinism, inside the code-103
message. -/
def renderArgs (xs : List Arg) : String :=
  "[" ++ String.intercalate ", " ((sortArgs xs).map Arg.render) ++ "]"

/-- Modelled from the spec: `ArgList` (`pydoclint/arg.py`), an ordered
sequence of Args. -/
structure ArgList where
  infoList : List Arg
  deriving DecidableEq

/-- Length of an ArgList (`ArgList.length()` in the source). -/
def ArgList.length (self : ArgList) : Nat :=
  self.infoList.length

/-- Modelled from the spec: sequence comparison with per-position Arg
equality under `checkTypeHint` (the `orderMatters = true` branch of
`ArgList.equals`). -/
def ArgList.seqEqual (checkTypeHint : Bool) : List Arg → List Arg → Bool
  | [], [] => true
  | a :: xs, b :: ys => Arg.argEq checkTypeHint a b && ArgList.seqEqual checkTypeHint xs ys
  | _, _ => false

/-- Membership of an Arg in a list under per-element Arg equality. -/
def ArgList.setContains (checkTypeHint : Bool) (xs : List Arg) (a : Arg) : Bool :=
  xs.any (fun b => Arg.argEq checkTypeHint a b)

/-- Modelled from the spec: `ArgList.equals(other, checkTypeHint,
orderMatters)`.  If `orderMatters` is true, compares as a sequence with
per-position Arg equality under `checkTypeHint`; if false, compares as a set
of Args under the same per-element equality (mutual inclusion). -/
def ArgList.equals (self other : ArgList) (checkTypeHint orderMatters : Bool) : Bool :=
  if orderMatters then
    ArgList.seqEqual checkTypeHint self.infoList other.infoList
  else
    self.infoList.all (ArgList.setContains checkTypeHint other.infoList) &&
      other.infoList.all (ArgList.setContains checkTypeHint self.infoList)

/-- Modelled from the spec: `ArgList.subtract(other)` — the set of Args
present in `self` but absent from `other`, under name-plus-typehint
identity. -/
def ArgList.subtract (self other : ArgList) : List Arg :=
  (self.infoList.filter (fun a => !(other.infoList.any (Arg.sameNameAndHint a)))).dedup

/-- Modelled from the spec: `pydoclint/method_type.py` is not among the
sources.  The category of a method, as detected from decorators by
`detectMethodType` (`pydoclint/utils/generic.py`, also not among the
sources); the embedded function record carries the detected category
directly. -/
inductive MethodType where
  | instanceMethod
  | classMethod
  | staticMethod
  deriving DecidableEq

/-- Modelled from the spec: the sectioned structure the external `numpydoc`
parser produces from a docstring.  A section absent or empty is falsy, so each
checked section appears as a boolean ("nonempty") plus the parameter list
itself; `summaryIsOneLine` and `hasOtherSections` describe the summary and the
remaining numpydoc sections, which only the short-docstring test consults. -/
structure DocStruct where
  parameters : List Arg
  hasReturnsSection : Bool
  hasYieldsSection : Bool
  hasRaisesSection : Bool
  summaryIsOneLine : Bool
  hasOtherSections : Bool
  deriving DecidableEq

/-- The parse of an empty or sectionless docstring. -/
def DocStruct.emptyStruct : DocStruct :=
  { parameters := []
    hasReturnsSection := false
    hasYieldsSection := false
    hasRaisesSection := false
    summaryIsOneLine := true
    hasOtherSections := false }

/-- Modelled from the spec: `isShortDocstring` (`pydoclint/utils/generic.py`,
not among the sources).  A short docstring is one containing only a one-line
summary and no structured sections. -/
def isShortDocstring (doc : DocStruct) : Bool :=
  doc.summaryIsOneLine && doc.parameters.isEmpty && !doc.hasReturnsSection &&
    !doc.hasYieldsSection && !doc.hasRaisesSection && !doc.hasOtherSections

/-- The embedding of a function or async-function definition node
(`FuncOrAsyncFuncDef`): its name, 1-based line, positional argument list
(`node.args.args`, already converted Arg by Arg), detected method category,
the five AST predicate-extractor results (`pydoclint/utils/
return_yield_raise.py`, not among the sources, so carried as fields), its own
docstring (`getDocstring(node)`, empty string when absent), and the parse of
that docstring. -/
structure FuncData where
  name : String
  lineno : Nat
  args : List Arg
  methodType : MethodType
  hasReturnStmt : Bool
  hasReturnAnno : Bool
  hasGenAsRetAnno : Bool
  hasYieldStmt : Bool
  hasRaiseStmt : Bool
  docstring : String
  docStruct : DocStruct
  deriving DecidableEq

/-- The embedding of a class-definition node: name, 1-based line, class
docstring and its parse. -/
structure ClassData where
  name : String
  lineno : Nat
  docstring : String
  docStruct : DocStruct
  deriving DecidableEq

/-- The visitor's parent-context field (`self.parent`): absent at module
level, otherwise the innermost enclosing function or class node. -/
inductive Parent where
  | none
  | func (f : FuncData)
  | cls (c : ClassData)
  deriving DecidableEq

/-- Whether the parent context is a class node (`isinstance(parent_,
ast.ClassDef)`). -/
def Parent.isClass : Parent → Bool
  | Parent.cls _ => true
  | _ => false

/-- The enclosing class's name; only consulted when the parent is a class. -/
def Parent.clsName : Parent → String
  | Parent.cls c => c.name
  | _ => ""

/-- The enclosing class's docstring; only consulted when the parent is a
class. -/
def Parent.clsDocstring : Parent → String
  | Parent.cls c => c.docstring
  | _ => ""

/-- The parse of the enclosing class's docstring; only consulted when the
parent is a class. -/
def Parent.clsDocStruct : Parent → DocStruct
  | Parent.cls c => c.docStruct
  | _ => DocStruct.emptyStruct

/-- The enclosing class's line number; only consulted when the parent is a
class. -/
def Parent.clsLineno : Parent → Nat
  | Parent.cls c => c.lineno
  | _ => 0

/-- The four configuration flags of `Visitor.__init__`, with their source
defaults. -/
structure Config where
  checkTypeHint : Bool := true
  checkArgOrder : Bool := true
  skipCheckingShortDocstrings : Bool := true
  skipCheckingRaises : Bool := false
  deriving DecidableEq

/-- Modelled from the spec: `generateMsgPrefix` (`pydoclint/utils/generic.py`,
not among the sources) builds the prefix identifying a definition. -/
def generateMsgPrefix (node : FuncData) (parent_ : Parent) (appendColon : Bool) : String :=
  let colon := if appendColon then ":" else ""
  match parent_ with
  | Parent.cls c => "Method `" ++ c.name ++ "." ++ node.name ++ "`" ++ colon
  | _ => "Function `" ++ node.name ++ "`" ++ colon

/-- Embedding of `Visitor.validateDocArgs` (visitor.py lines 187-284): the
count checks (101/102) followed by the escalating equality relaxations
(104, 105, 104+105, 103). -/
def validateDocArgs (cfg : Config) (docArgList : List Arg) (actualArgs : List Arg)
    (node : FuncData) (msgPrefix : String) : List Violation :=
  let lineNum : Nat := node.lineno
  let v101 : Violation := { code := 101, line := lineNum, msgPrefix := msgPrefix }
  let v102 : Violation := { code := 102, line := lineNum, msgPrefix := msgPrefix }
  let v104 : Violation := { code := 104, line := lineNum, msgPrefix := msgPrefix }
  let v105 : Violation := { code := 105, line := lineNum, msgPrefix := msgPrefix }
  let docArgs : ArgList := { infoList := docArgList }
  let funcArgs : ArgList := { infoList := actualArgs }
  if docArgs.length == 0 && funcArgs.length == 0 then
    []
  else
    (if docArgs.length < funcArgs.length then [v101] else []) ++
    (if docArgs.length > funcArgs.length then [v102] else []) ++
    (if !(docArgs.equals funcArgs cfg.checkTypeHint cfg.checkArgOrder) then
      if docArgs.equals funcArgs cfg.checkTypeHint false then
        [v104]
      else if docArgs.equals funcArgs false cfg.checkArgOrder then
        [v105]
      else if docArgs.equals funcArgs false false then
        [v104, v105]
      else
        let argsInFuncNotInDoc : List Arg := funcArgs.subtract docArgs
        let argsInDocNotInFunc : List Arg := docArgs.subtract funcArgs
        let msgPostfixParts : List String :=
          (if !argsInFuncNotInDoc.isEmpty then
            ["Arguments in the function signature but not in the docstring: " ++
              renderArgs argsInFuncNotInDoc ++ "."]
          else []) ++
          (if !argsInDocNotInFunc.isEmpty then
            ["Arguments in the docstring but not in the function signature: " ++
              renderArgs argsInDocNotInFunc ++ "."]
          else [])
        [{ code := 103, line := lineNum, msgPrefix := msgPrefix,
           msgPostfix := String.intercalate " " msgPostfixParts }]
    else [])

/-- Embedding of `Visitor.checkArguments` (visitor.py lines 143-185): drop the
implicit first parameter for instance and class methods, then validate the
documented parameter list against the actual one. -/
def checkArguments (cfg : Config) (node : FuncData) (parent_ : Parent)
    (docstringStruct : DocStruct) : List Violation :=
  let argList : List Arg := node.args
  let isMethod : Bool := Parent.isClass parent_
  let msgPrefix : String := generateMsgPrefix node parent_ true
  let argList : List Arg :=
    if isMethod &&
        (node.methodType == MethodType.instanceMethod ||
          node.methodType == MethodType.classMethod) then
      argList.drop 1
    else argList
  let docArgList : List Arg := docstringStruct.parameters
  validateDocArgs cfg docArgList argList node msgPrefix

/-- Embedding of `Visitor.checkReturns` (visitor.py lines 286-317). -/
def checkReturns (node : FuncData) (parent_ : Parent)
    (nonEmptyDocStruct : DocStruct) : List Violation :=
  let lineNum : Nat := node.lineno
  let msgPrefix : String := generateMsgPrefix node parent_ false
  let v201 : Violation := { code := 201, line := lineNum, msgPrefix := msgPrefix }
  let v202 : Violation := { code := 202, line := lineNum, msgPrefix := msgPrefix }
  let hasReturnStmt : Bool := node.hasReturnStmt
  let hasReturnAnno : Bool := node.hasReturnAnno
  let hasGenAsRetAnno : Bool := node.hasGenAsRetAnno
  let docstringHasReturnSection : Bool := nonEmptyDocStruct.hasReturnsSection
  (if !docstringHasReturnSection &&
      (hasReturnStmt || (hasReturnAnno && !hasGenAsRetAnno)) then
    [v201]
  else []) ++
  (if docstringHasReturnSection && !(hasReturnStmt || hasReturnAnno) then
    [v202]
  else [])

/-- Embedding of `Visitor.checkReturnsInClassConstructor` (visitor.py lines
319-339): code 302 on the class's line when the class docstring contains a
"Returns" section. -/
def checkReturnsInClassConstructor (parent_ : Parent)
    (nonEmptyDocStruct : DocStruct) : List Violation :=
  let docstringHasReturnSection : Bool := nonEmptyDocStruct.hasReturnsSection
  if docstringHasReturnSection then
    [{ code := 302, line := Parent.clsLineno parent_,
       msgPrefix := "Class `" ++ Parent.clsName parent_ ++ "`:" }]
  else []

/-- Embedding of `Visitor.checkYields` (visitor.py lines 341-373). -/
def checkYields (node : FuncData) (parent_ : Parent)
    (nonEmptyDocStruct : DocStruct) : List Violation :=
  let lineNum : Nat := node.lineno
  let msgPrefix : String := generateMsgPrefix node parent_ false
  let v401 : Violation := { code := 401, line := lineNum, msgPrefix := msgPrefix }
  let v402 : Violation := { code := 402, line := lineNum, msgPrefix := msgPrefix }
  let v403 : Violation := { code := 403, line := lineNum, msgPrefix := msgPrefix }
  let docstringHasYieldsSection : Bool := nonEmptyDocStruct.hasYieldsSection
  let hasYieldStmt : Bool := node.hasYieldStmt
  let hasGenAsRetAnno : Bool := node.hasGenAsRetAnno
  (if !docstringHasYieldsSection && hasGenAsRetAnno then [v401] else []) ++
  (if !docstringHasYieldsSection && hasYieldStmt then [v402] else []) ++
  (if docstringHasYieldsSection && (!hasYieldStmt && !hasGenAsRetAnno) then
    [v403]
  else [])

/-- Embedding of `Visitor.checkRaises` (visitor.py lines 375-400). -/
def checkRaises (node : FuncData) (parent_ : Parent)
    (nonEmptyDocStruct : DocStruct) : List Violation :=
  let lineNum : Nat := node.lineno
  let msgPrefix : String := generateMsgPrefix node parent_ false
  let v501 : Violation := { code := 501, line := lineNum, msgPrefix := msgPrefix }
  let v502 : Violation := { code := 502, line := lineNum, msgPrefix := msgPrefix }
  let docstringHasRaisesSection : Bool := nonEmptyDocStruct.hasRaisesSection
  let hasRaiseStmt : Bool := node.hasRaiseStmt
  (if hasRaiseStmt && !docstringHasRaisesSection then [v501] else []) ++
  (if !hasRaiseStmt && docstringHasRaisesSection then [v502] else [])

/-- Whether the visited definition is a class constructor (visitor.py lines
55-57): its name is `__init__` and the immediate parent is a class. -/
def isClassConstructorB (parent_ : Parent) (node : FuncData) : Bool :=
  node.name == "__init__" && Parent.isClass parent_

/-- The working docstring of a definition (visitor.py lines 59-74): a class
constructor is checked against the enclosing class's docstring, every other
definition against its own. -/
def workingDocstring (parent_ : Parent) (node : FuncData) : String :=
  if isClassConstructorB parent_ node then Parent.clsDocstring parent_
  else node.docstring

/-- The parse of the working docstring (visitor.py line 98, with the
constructor substitution of lines 61-74 applied). -/
def workingDocStruct (parent_ : Parent) (node : FuncData) : DocStruct :=
  if isClassConstructorB parent_ node then Parent.clsDocStruct parent_
  else node.docStruct

/-- Embedding of the per-definition body of `Visitor.visit_FunctionDef`
(visitor.py lines 51-130): the violations this one definition contributes, in
emission order 301, argument check, return check (replaced by the
constructor-specific return check for constructors), yield check, raise
check.  The inner `if docstring == ''` guard around the return/yield/raise
checks (lines 108-111) is kept even though it sits inside the non-empty
branch. -/
def visit_FunctionDef_viols (cfg : Config) (parent_ : Parent)
    (node : FuncData) : List Violation :=
  let isClassConstructor : Bool := isClassConstructorB parent_ node
  let v301s : List Violation :=
    if isClassConstructor && decide (0 < node.docstring.length) then
      [{ code := 301, line := node.lineno,
         msgPrefix := "Class `" ++ Parent.clsName parent_ ++ "`:" }]
    else []
  let docstring : String := workingDocstring parent_ node
  if docstring == "" then
    v301s
  else
    let doc : DocStruct := workingDocStruct parent_ node
    let isShort : Bool := isShortDocstring doc
    let skipShort : Bool := cfg.skipCheckingShortDocstrings && isShort
    let argViolations : List Violation :=
      if skipShort then [] else checkArguments cfg node parent_ doc
    let returnViolations0 : List Violation :=
      if skipShort then []
      else if docstring == "" then []
      else checkReturns node parent_ doc
    let yieldViolations : List Violation :=
      if skipShort then []
      else if docstring == "" then []
      else checkYields node parent_ doc
    let raiseViolations : List Violation :=
      if skipShort then []
      else if docstring == "" then []
      else if !cfg.skipCheckingRaises then checkRaises node parent_ doc
      else []
    let returnViolations : List Violation :=
      if isClassConstructor then checkReturnsInClassConstructor parent_ doc
      else returnViolations0
    v301s ++ argViolations ++ returnViolations ++ yieldViolations ++ raiseViolations

mutual

/-- A definition node of the tree the visitor walks: a (possibly async)
function definition or a class definition, each with the list of definition
nodes nested in its body, in source order. -/
inductive Node where
  | funcDef : FuncData → NodeList → Node
  | classDef : ClassData → NodeList → Node

/-- A list of sibling definition nodes, in source order. -/
inductive NodeList where
  | nil : NodeList
  | cons : Node → NodeList → NodeList

end

/-- The visitor's mutable state: `self.parent` and `self.violations`
(visitor.py lines 40-41; a fresh visitor starts with `Parent.none` and the
empty list). -/
structure VState where
  parent : Parent
  violations : List Violation
  deriving DecidableEq

mutual

/-- Embedding of `Visitor.visit_FunctionDef` and `Visitor.visit_ClassDef`:
a function definition appends its own violations (computed against the saved
parent), then its body is visited with the function as parent; a class
definition only visits its body with the class as parent; in both cases the
parent field is restored on exit. -/
def visitS (cfg : Config) (st : VState) : Node → VState
  | Node.funcDef f body =>
    let afterSelf : VState :=
      { parent := Parent.func f,
        violations := st.violations ++ visit_FunctionDef_viols cfg st.parent f }
    let afterBody : VState := visitNodeList cfg afterSelf body
    { afterBody with parent := st.parent }
  | Node.classDef c body =>
    let afterBody : VState := visitNodeList cfg { st with parent := Parent.cls c } body
    { afterBody with parent := st.parent }

/-- Visiting a list of sibling nodes left to right (`generic_visit`). -/
def visitNodeList (cfg : Config) (st : VState) : NodeList → VState
  | NodeList.nil => st
  | NodeList.cons n rest => visitNodeList cfg (visitS cfg st n) rest

end

/-- One full run of a fresh visitor over a module's top-level definitions
(`Visitor.__init__` then `visit`): parent starts absent, violations start
empty. -/
def runVisitor (cfg : Config) (tree : NodeList) : VState :=
  visitNodeList cfg { parent := Parent.none, violations := [] } tree

/-- Example configuration: all defaults. -/
def cfgC1 : Config := {}

/-- Example function node with no interesting fields. -/
def nodeC1 : FuncData :=
  { name := "f", lineno := 2, args := [], methodType := MethodType.staticMethod,
    hasReturnStmt := false, hasReturnAnno := false, hasGenAsRetAnno := false,
    hasYieldStmt := false, hasRaiseStmt := false, docstring := "",
    docStruct := DocStruct.emptyStruct }

/-- Example documented parameter list (swapped order). -/
def dlC1 : List Arg := [{ name := "b", typeHint := "int" }, { name := "a", typeHint := "int" }]

/-- Example actual parameter list. -/
def alC1 : List Arg := [{ name := "a", typeHint := "int" }, { name := "b", typeHint := "int" }]

/-- Example configuration: all defaults. -/
def cfgC3 : Config := {}

/-- Example class whose docstring has a "Returns" section. -/
def cC3 : ClassData :=
  { name := "Foo", lineno := 1, docstring := "Class doc.",
    docStruct :=
      { parameters := [], hasReturnsSection := true, hasYieldsSection := false,
        hasRaisesSection := false, summaryIsOneLine := true, hasOtherSections := false } }

/-- Example constructor of `cC3` without its own docstring. -/
def fC3 : FuncData :=
  { name := "__init__", lineno := 4, args := [], methodType := MethodType.instanceMethod,
    hasReturnStmt := false, hasReturnAnno := false, hasGenAsRetAnno := false,
    hasYieldStmt := false, hasRaiseStmt := false, docstring := "",
    docStruct := DocStruct.emptyStruct }

/-- Example configuration: all defaults. -/
def cfgC4 : Config := {}

/-- Example class on line 1 whose docstring has a "Returns" section. -/
def cC4 : ClassData :=
  { name := "Foo", lineno := 1, docstring := "Some doc.",
    docStruct :=
      { parameters := [], hasReturnsSection := true, hasYieldsSection := false,
        hasRaisesSection := false, summaryIsOneLine := true, hasOtherSections := false } }

/-- Example constructor of `cC4`, on line 5. -/
def fC4 : FuncData :=
  { name := "__init__", lineno := 5, args := [], methodType := MethodType.instanceMethod,
    hasReturnStmt := false, hasReturnAnno := false, hasGenAsRetAnno := false,
    hasYieldStmt := false, hasRaiseStmt := false, docstring := "",
    docStruct := DocStruct.emptyStruct }

/-- The violation the check of `fC4` inside `cC4` emits: code 302 on the
class's line 1, not on the constructor's line 5. -/
def vC4 : Violation := { code := 302, line := 1, msgPrefix := "Class `Foo`:" }

/-- Example function that returns a value. -/
def fC5 : FuncData :=
  { name := "g", lineno := 3, args := [], methodType := MethodType.staticMethod,
    hasReturnStmt := true, hasReturnAnno := false, hasGenAsRetAnno := false,
    hasYieldStmt := false, hasRaiseStmt := false, docstring := "Doc.",
    docStruct := DocStruct.emptyStruct }

/-- Example docstring parse with no sections. -/
def dC5 : DocStruct := DocStruct.emptyStruct

/-- Example generator function: yields, and its return annotation is a
generator type. -/
def fC6 : FuncData :=
  { name := "gen", lineno := 7, args := [], methodType := MethodType.staticMethod,
    hasReturnStmt := false, hasReturnAnno := true, hasGenAsRetAnno := true,
    hasYieldStmt := true, hasRaiseStmt := false, docstring := "Doc.",
    docStruct := DocStruct.emptyStruct }

/-- Example docstring parse with no sections. -/
def dC6 : DocStruct := DocStruct.emptyStruct

/-- Example configuration: all defaults. -/
def cfgC8 : Config := {}

/-- Example class with an empty docstring. -/
def cC8 : ClassData :=
  { name := "Bar", lineno := 1, docstring := "", docStruct := DocStruct.emptyStruct }

/-- Example constructor of `cC8` carrying its own docstring. -/
def fC8 : FuncData :=
  { name := "__init__", lineno := 3, args := [], methodType := MethodType.instanceMethod,
    hasReturnStmt := false, hasReturnAnno := false, hasGenAsRetAnno := false,
    hasYieldStmt := false, hasRaiseStmt := false, docstring := "Init doc.",
    docStruct := DocStruct.emptyStruct }

/-- The violation emitted for `fC8` inside `cC8`: code 301 on the
constructor's line. -/
def vC8 : Violation := { code := 301, line := 3, msgPrefix := "Class `Bar`:" }

/-- Example configuration with the short-docstring skip enabled (default). -/
def cfgC9 : Config := {}

/-- Example configuration with the short-docstring skip disabled. -/
def cfgNoSkipC9 : Config := { skipCheckingShortDocstrings := false }

/-- Example function with a short (one-line, sectionless) docstring and a
value-bearing return statement. -/
def fC9 : FuncData :=
  { name := "s", lineno := 11, args := [], methodType := MethodType.staticMethod,
    hasReturnStmt := true, hasReturnAnno := false, hasGenAsRetAnno := false,
    hasYieldStmt := false, hasRaiseStmt := false, docstring := "Do stuff.",
    docStruct := DocStruct.emptyStruct }

@[simp] theorem ArgList.length_mk (l : List Arg) :
    ArgList.length { infoList := l } = l.length := rfl

/-- Every violation of `validateDocArgs` carries one of the codes 101-105 and
the line of the definition under review. -/
theorem validateDocArgs_mem (cfg : Config) (dl al : List Arg) (node : FuncData)
    (pre : String) (v : Violation) (h : v ∈ validateDocArgs cfg dl al node pre) :
    (v.code = 101 ∨ v.code = 102 ∨ v.code = 103 ∨ v.code = 104 ∨ v.code = 105) ∧
      v.line = node.lineno := by
  simp only [validateDocArgs] at h
  split at h
  · simp at h
  · simp only [List.mem_append] at h
    rcases h with (h | h) | h
    · split at h <;> simp_all
    · split at h <;> simp_all
    · split at h
      · split at h
        · simp_all
        · split at h
          · simp_all
          · split at h
            · simp only [List.mem_cons, List.not_mem_nil, or_false] at h
              rcases h with h | h <;> subst h <;> simp
            · simp_all
      · simp at h

/-- Every violation of `checkArguments` carries one of the codes 101-105 and
the line of the definition under review. -/
theorem checkArguments_mem (cfg : Config) (n : FuncData) (p : Parent)
    (d : DocStruct) (v : Violation) (h : v ∈ checkArguments cfg n p d) :
    (v.code = 101 ∨ v.code = 102 ∨ v.code = 103 ∨ v.code = 104 ∨ v.code = 105) ∧
      v.line = n.lineno := by
  simp only [checkArguments] at h
  exact validateDocArgs_mem _ _ _ _ _ _ h

/-- Every violation of `checkReturns` carries code 201 or 202 and the line of
the definition under review. -/
theorem checkReturns_mem (n : FuncData) (p : Parent) (d : DocStruct)
    (v : Violation) (h : v ∈ checkReturns n p d) :
    (v.code = 201 ∨ v.code = 202) ∧ v.line = n.lineno := by
  simp only [checkReturns, List.mem_append] at h
  rcases h with h | h <;> split at h <;> simp_all

/-- Every violation of `checkYields` carries code 401, 402 or 403 and the
line of the definition under review. -/
theorem checkYields_mem (n : FuncData) (p : Parent) (d : DocStruct)
    (v : Violation) (h : v ∈ checkYields n p d) :
    (v.code = 401 ∨ v.code = 402 ∨ v.code = 403) ∧ v.line = n.lineno := by
  simp only [checkYields, List.mem_append] at h
  rcases h with (h | h) | h <;> split at h <;> simp_all

/-- Every violation of `checkRaises` carries code 501 or 502 and the line of
the definition under review. -/
theorem checkRaises_mem (n : FuncData) (p : Parent) (d : DocStruct)
    (v : Violation) (h : v ∈ checkRaises n p d) :
    (v.code = 501 ∨ v.code = 502) ∧ v.line = n.lineno := by
  simp only [checkRaises, List.mem_append] at h
  rcases h with h | h <;> split at h <;> simp_all

/-- Every violation of `checkReturnsInClassConstructor` carries code 302 and
the enclosing class's line, and it only exists when the class docstring has a
"Returns" section. -/
theorem checkReturnsInClassConstructor_mem (p : Parent) (d : DocStruct)
    (v : Violation) (h : v ∈ checkReturnsInClassConstructor p d) :
    v.code = 302 ∧ v.line = Parent.clsLineno p ∧ d.hasReturnsSection = true := by
  simp only [checkReturnsInClassConstructor] at h
  split at h <;> simp_all

/-- `checkReturnsInClassConstructor` computed on a docstring with a "Returns"
section. -/
theorem checkReturnsInClassConstructor_pos (p : Parent) (d : DocStruct)
    (hr : d.hasReturnsSection = true) :
    checkReturnsInClassConstructor p d =
      [{ code := 302, line := Parent.clsLineno p,
         msgPrefix := "Class `" ++ Parent.clsName p ++ "`:" }] := by
  simp [checkReturnsInClassConstructor, hr]

/-- Closed form of `visit_FunctionDef_viols`: the dead inner empty-docstring
guards removed and the five parts laid out. -/
theorem visit_FunctionDef_viols_spec (cfg : Config) (p : Parent) (n : FuncData) :
    visit_FunctionDef_viols cfg p n =
      (if isClassConstructorB p n && decide (0 < n.docstring.length) then
        [{ code := 301, line := n.lineno,
           msgPrefix := "Class `" ++ Parent.clsName p ++ "`:" }]
      else []) ++
      (if workingDocstring p n == "" then []
      else
        (if cfg.skipCheckingShortDocstrings && isShortDocstring (workingDocStruct p n) then []
        else checkArguments cfg n p (workingDocStruct p n)) ++
        (if isClassConstructorB p n then
          checkReturnsInClassConstructor p (workingDocStruct p n)
        else if cfg.skipCheckingShortDocstrings && isShortDocstring (workingDocStruct p n) then []
        else checkReturns n p (workingDocStruct p n)) ++
        (if cfg.skipCheckingShortDocstrings && isShortDocstring (workingDocStruct p n) then []
        else checkYields n p (workingDocStruct p n)) ++
        (if cfg.skipCheckingShortDocstrings && isShortDocstring (workingDocStruct p n) then []
        else if !cfg.skipCheckingRaises then checkRaises n p (workingDocStruct p n)
        else [])) := by
  unfold visit_FunctionDef_viols
  by_cases hds : workingDocstring p n = ""
  · simp [hds]
  · simp [hds]

mutual

/-- Save/restore discipline: visiting a node leaves the parent field as it
was, and only appends to the violation list; the appended block is what a run
from a fresh violation list (at the same parent) would produce. -/
theorem visitS_run (cfg : Config) (st : VState) (n : Node) :
    visitS cfg st n =
      { parent := st.parent,
        violations :=
          st.violations ++
            (visitS cfg { parent := st.parent, violations := [] } n).violations } := by
  cases n with
  | funcDef f body =>
    have h1 := visitNodeList_run cfg
      { parent := Parent.func f,
        violations := st.violations ++ visit_FunctionDef_viols cfg st.parent f } body
    have h2 := visitNodeList_run cfg
      { parent := Parent.func f,
        violations := visit_FunctionDef_viols cfg st.parent f } body
    simp only [visitS, List.nil_append]
    rw [h1, h2]
    simp [List.append_assoc]
  | classDef c body =>
    have h1 := visitNodeList_run cfg
      { parent := Parent.cls c, violations := st.violations } body
    simp only [visitS, List.nil_append]
    rw [h1]

/-- Save/restore discipline for a sibling list, as for `visitS_run`. -/
theorem visitNodeList_run (cfg : Config) (st : VState) (ns : NodeList) :
    visitNodeList cfg st ns =
      { parent := st.parent,
        violations :=
          st.violations ++
            (visitNodeList cfg { parent := st.parent, violations := [] } ns).violations } := by
  cases ns with
  | nil => simp [visitNodeList]
  | cons n rest =>
    have hn := visitS_run cfg st n
    have hn0 := visitS_run cfg { parent := st.parent, violations := [] } n
    have h1 := visitNodeList_run cfg
      { parent := st.parent,
        violations :=
          st.violations ++
            (visitS cfg { parent := st.parent, violations := [] } n).violations } rest
    have h2 := visitNodeList_run cfg
      { parent := st.parent,
        violations := (visitS cfg { parent := st.parent, violations := [] } n).violations } rest
    simp only [visitNodeList]
    rw [hn, h1, hn0]
    simp only [List.nil_append]
    rw [h2]
    simp [List.append_assoc]

end

/-- Two empty ArgLists are equal under any mode flags. -/
theorem ArgList.equals_nil_nil (a b : Bool) :
    ArgList.equals { infoList := [] } { infoList := [] } a b = true := by
  simp [ArgList.equals, ArgList.seqEqual, ite_self]

/-- Codes 101 and 102 are each emitted by `validateDocArgs` exactly when the
corresponding strict count comparison holds. -/
theorem validateDocArgs_iff_101_102 (cfg : Config) (dl al : List Arg)
    (node : FuncData) (pre : String) :
    (101 ∈ (validateDocArgs cfg dl al node pre).map Violation.code ↔
      dl.length < al.length) ∧
    (102 ∈ (validateDocArgs cfg dl al node pre).map Violation.code ↔
      al.length < dl.length) := by
  simp only [validateDocArgs]
  split
  · rename_i h0
    simp only [Bool.and_eq_true, beq_iff_eq, ArgList.length_mk] at h0
    simp [h0.1, h0.2]
  · split_ifs <;> simp_all

/-- Decomposition of the per-definition violations: every element is the 301
violation or comes from one of the five checks, and the constructor return
check runs exactly when the definition is a constructor. -/
theorem visit_FunctionDef_viols_mem (cfg : Config) (p : Parent) (n : FuncData)
    (v : Violation) (h : v ∈ visit_FunctionDef_viols cfg p n) :
    (v.code = 301 ∧ v.line = n.lineno) ∨
    v ∈ checkArguments cfg n p (workingDocStruct p n) ∨
    (isClassConstructorB p n = true ∧
      v ∈ checkReturnsInClassConstructor p (workingDocStruct p n)) ∨
    (isClassConstructorB p n = false ∧ v ∈ checkReturns n p (workingDocStruct p n)) ∨
    v ∈ checkYields n p (workingDocStruct p n) ∨
    (cfg.skipCheckingRaises = false ∧ v ∈ checkRaises n p (workingDocStruct p n)) := by
  rw [visit_FunctionDef_viols_spec] at h
  simp only [List.mem_append] at h
  rcases h with h | h
  · split at h
    · simp only [List.mem_cons, List.not_mem_nil, or_false] at h
      subst h
      exact Or.inl ⟨rfl, rfl⟩
    · simp at h
  · split at h
    · simp at h
    · simp only [List.mem_append] at h
      rcases h with ((h | h) | h) | h
      · split at h
        · simp at h
        · exact Or.inr (Or.inl h)
      · split at h
        · rename_i hcc
          exact Or.inr (Or.inr (Or.inl ⟨hcc, h⟩))
        · rename_i hcc
          split at h
          · simp at h
          · refine Or.inr (Or.inr (Or.inr (Or.inl ⟨?_, h⟩)))
            simpa using hcc
      · split at h
        · simp at h
        · exact Or.inr (Or.inr (Or.inr (Or.inr (Or.inl h))))
      · split at h
        · simp at h
        · split at h
          · rename_i hsk
            refine Or.inr (Or.inr (Or.inr (Or.inr (Or.inr ⟨?_, h⟩))))
            simpa using hsk
          · simp at h

/-- C1: when the documented parameter list does not equal the actual one
under the configured settings, the relaxations are tried in the fixed order
(order only, type hints only, both) and the first that succeeds determines the
outcome, so exactly one of 104 alone, 105 alone, 104 with 105, or 103 is
emitted per call (beyond any 101/102); when the lists are equal under the
configured settings, none of 103/104/105 is emitted. -/
theorem pydoclint_C1 (cfg : Config) (dl al : List Arg) (node : FuncData) (pre : String) :
    (ArgList.equals { infoList := dl } { infoList := al }
        cfg.checkTypeHint cfg.checkArgOrder = true →
      ∀ v ∈ validateDocArgs cfg dl al node pre,
        v.code ≠ 103 ∧ v.code ≠ 104 ∧ v.code ≠ 105) ∧
    (ArgList.equals { infoList := dl } { infoList := al }
        cfg.checkTypeHint cfg.checkArgOrder = false →
      ((validateDocArgs cfg dl al node pre).filter
          (fun v => decide (103 ≤ v.code))).map Violation.code =
        if ArgList.equals { infoList := dl } { infoList := al } cfg.checkTypeHint false then
          [104]
        else if ArgList.equals { infoList := dl } { infoList := al } false cfg.checkArgOrder then
          [105]
        else if ArgList.equals { infoList := dl } { infoList := al } false false then
          [104, 105]
        else
          [103]) := by
  constructor
  · intro heq v hv
    simp only [validateDocArgs] at hv
    split at hv
    · simp at hv
    · simp only [List.mem_append] at hv
      rcases hv with (hv | hv) | hv
      · split at hv <;> simp_all
      · split at hv <;> simp_all
      · rw [heq] at hv
        simp at hv
  · intro hne
    simp only [validateDocArgs, hne]
    split
    · rename_i h0
      exfalso
      simp only [Bool.and_eq_true, beq_iff_eq, ArgList.length_mk] at h0
      obtain ⟨h1, h2⟩ := h0
      rw [List.length_eq_zero] at h1 h2
      subst h1
      subst h2
      rw [ArgList.equals_nil_nil] at hne
      exact Bool.noConfusion hne
    · split_ifs <;> simp_all

/-- C2 counterexample: the claimed input does not exist — no call of the
argument check ever emits 101 and 102 together. -/
theorem pydoclint_C2_counterexample :
    (∃ (cfg : Config) (dl al : List Arg) (node : FuncData) (pre : String),
      101 ∈ (validateDocArgs cfg dl al node pre).map Violation.code ∧
      102 ∈ (validateDocArgs cfg dl al node pre).map Violation.code) ↔ False := by
  constructor
  · rintro ⟨cfg, dl, al, node, pre, h1, h2⟩
    rw [(validateDocArgs_iff_101_102 cfg dl al node pre).1] at h1
    rw [(validateDocArgs_iff_101_102 cfg dl al node pre).2] at h2
    exact absurd h2 (Nat.lt_asymm h1)
  · exact False.elim

/-- C2 (amended): the two count checks are independent but mutually exclusive
in effect — 101 fires exactly when the documented count is strictly below the
actual count, 102 exactly when strictly above, and no input makes both fire
in a single call. -/
theorem pydoclint_C2 (cfg : Config) (dl al : List Arg) (node : FuncData) (pre : String) :
    (101 ∈ (validateDocArgs cfg dl al node pre).map Violation.code ↔
      dl.length < al.length) ∧
    (102 ∈ (validateDocArgs cfg dl al node pre).map Violation.code ↔
      al.length < dl.length) ∧
    ¬(101 ∈ (validateDocArgs cfg dl al node pre).map Violation.code ∧
      102 ∈ (validateDocArgs cfg dl al node pre).map Violation.code) := by
  refine ⟨(validateDocArgs_iff_101_102 cfg dl al node pre).1,
    (validateDocArgs_iff_101_102 cfg dl al node pre).2, ?_⟩
  intro h
  obtain ⟨h1, h2⟩ := h
  rw [(validateDocArgs_iff_101_102 cfg dl al node pre).1] at h1
  rw [(validateDocArgs_iff_101_102 cfg dl al node pre).2] at h2
  exact absurd h2 (Nat.lt_asymm h1)

/-- C1 witness: a concrete swapped-order call, where the first relaxation
(ignore order) succeeds and exactly 104 is emitted. -/
theorem pydoclint_C1_witness :
    ArgList.equals { infoList := dlC1 } { infoList := alC1 }
      cfgC1.checkTypeHint cfgC1.checkArgOrder = false ∧
    ((validateDocArgs cfgC1 dlC1 alC1 nodeC1 "Function `f`:").filter
        (fun v => decide (103 ≤ v.code))).map Violation.code =
      (if ArgList.equals { infoList := dlC1 } { infoList := alC1 } cfgC1.checkTypeHint false then
        [104]
      else if ArgList.equals { infoList := dlC1 } { infoList := alC1 } false cfgC1.checkArgOrder then
        [105]
      else if ArgList.equals { infoList := dlC1 } { infoList := alC1 } false false then
        [104, 105]
      else
        [103]) :=
  ⟨by decide, (pydoclint_C1 cfgC1 dlC1 alC1 nodeC1 "Function `f`:").2 (by decide)⟩

/-- C3: for a class constructor with a non-empty class docstring, the
constructor-specific return check replaces the 201/202 check: 302 is emitted
exactly when the class docstring has a "Returns" section, and 201/202 are
never emitted. -/
theorem pydoclint_C3 (cfg : Config) (c : ClassData) (node : FuncData)
    (hname : node.name = "__init__") (hdoc : c.docstring ≠ "") :
    (302 ∈ (visit_FunctionDef_viols cfg (Parent.cls c) node).map Violation.code ↔
      c.docStruct.hasReturnsSection = true) ∧
    201 ∉ (visit_FunctionDef_viols cfg (Parent.cls c) node).map Violation.code ∧
    202 ∉ (visit_FunctionDef_viols cfg (Parent.cls c) node).map Violation.code := by
  have hcc : isClassConstructorB (Parent.cls c) node = true := by
    simp [isClassConstructorB, hname, Parent.isClass]
  have hwds : workingDocStruct (Parent.cls c) node = c.docStruct := by
    simp [workingDocStruct, hcc, Parent.clsDocStruct]
  have key : ∀ v ∈ visit_FunctionDef_viols cfg (Parent.cls c) node,
      (v.code = 302 → c.docStruct.hasReturnsSection = true) ∧
        v.code ≠ 201 ∧ v.code ≠ 202 := by
    intro v hv
    rcases visit_FunctionDef_viols_mem cfg (Parent.cls c) node v hv with
      h | h | h | h | h | h
    · obtain ⟨h1, h2⟩ := h
      exact ⟨fun hc => (by omega : False).elim, by omega, by omega⟩
    · have h5 := (checkArguments_mem _ _ _ _ _ h).1
      rcases h5 with h5 | h5 | h5 | h5 | h5 <;>
        exact ⟨fun hc => (by omega : False).elim, by omega, by omega⟩
    · obtain ⟨h1, h2, h3⟩ := checkReturnsInClassConstructor_mem _ _ _ h.2
      rw [hwds] at h3
      exact ⟨fun hc => h3, by omega, by omega⟩
    · rw [hcc] at h
      exact absurd h.1 (by simp)
    · have h5 := (checkYields_mem _ _ _ _ h).1
      rcases h5 with h5 | h5 | h5 <;>
        exact ⟨fun hc => (by omega : False).elim, by omega, by omega⟩
    · have h5 := (checkRaises_mem _ _ _ _ h.2).1
      rcases h5 with h5 | h5 <;>
        exact ⟨fun hc => (by omega : False).elim, by omega, by omega⟩
  refine ⟨⟨?_, ?_⟩, ?_, ?_⟩
  · intro h
    simp only [List.mem_map] at h
    obtain ⟨v, hv, hcode⟩ := h
    exact (key v hv).1 hcode
  · intro hret
    have hne : (workingDocstring (Parent.cls c) node == "") = false := by
      simp [workingDocstring, hcc, Parent.clsDocstring, hdoc]
    have hctor := checkReturnsInClassConstructor_pos (Parent.cls c)
      (workingDocStruct (Parent.cls c) node) (by rw [hwds]; exact hret)
    rw [visit_FunctionDef_viols_spec]
    simp [hne, hcc, hctor]
  · intro h
    simp only [List.mem_map] at h
    obtain ⟨v, hv, hcode⟩ := h
    exact (key v hv).2.1 hcode
  · intro h
    simp only [List.mem_map] at h
    obtain ⟨v, hv, hcode⟩ := h
    exact (key v hv).2.2 hcode

/-- C3 witness: the concrete constructor `fC3` of class `cC3` whose class
docstring has a "Returns" section. -/
theorem pydoclint_C3_witness :
    (302 ∈ (visit_FunctionDef_viols cfgC3 (Parent.cls cC3) fC3).map Violation.code ↔
      cC3.docStruct.hasReturnsSection = true) ∧
    201 ∉ (visit_FunctionDef_viols cfgC3 (Parent.cls cC3) fC3).map Violation.code ∧
    202 ∉ (visit_FunctionDef_viols cfgC3 (Parent.cls cC3) fC3).map Violation.code :=
  pydoclint_C3 cfgC3 cC3 fC3 rfl (by decide)

/-- C4 counterexample: the 302 violation for the constructor `fC4` (line 5)
of class `cC4` (line 1) carries line 1, not the line of the definition under
review. -/
theorem pydoclint_C4_counterexample :
    ¬(∀ v ∈ visit_FunctionDef_viols cfgC4 (Parent.cls cC4) fC4,
      v.line = fC4.lineno) := by
  decide

/-- C4 (amended): every emitted violation carries the source line of the
definition under review, except code 302, which carries the line of the
enclosing class. -/
theorem pydoclint_C4 (cfg : Config) (p : Parent) (n : FuncData) (v : Violation)
    (h : v ∈ visit_FunctionDef_viols cfg p n) :
    v.line = n.lineno ∨ (v.code = 302 ∧ v.line = Parent.clsLineno p) := by
  rcases visit_FunctionDef_viols_mem cfg p n v h with h | h | h | h | h | h
  · exact Or.inl h.2
  · exact Or.inl (checkArguments_mem _ _ _ _ _ h).2
  · obtain ⟨h1, h2, h3⟩ := checkReturnsInClassConstructor_mem _ _ _ h.2
    exact Or.inr ⟨h1, h2⟩
  · exact Or.inl (checkReturns_mem _ _ _ _ h.2).2
  · exact Or.inl (checkYields_mem _ _ _ _ h).2
  · exact Or.inl (checkRaises_mem _ _ _ _ h.2).2

/-- C4 witness: the amended statement applied to the concrete 302 violation
of `fC4` inside `cC4`. -/
theorem pydoclint_C4_witness :
    vC4 ∈ visit_FunctionDef_viols cfgC4 (Parent.cls cC4) fC4 ∧
    (vC4.line = fC4.lineno ∨
      (vC4.code = 302 ∧ vC4.line = Parent.clsLineno (Parent.cls cC4))) :=
  ⟨by decide, pydoclint_C4 cfgC4 (Parent.cls cC4) fC4 vC4 (by decide)⟩

/-- C5: the return check emits 201 exactly when no "Returns" section is
documented and (a value-bearing return statement exists, or a non-generator
return annotation exists); it emits 202 exactly when a "Returns" section is
documented and neither a value-bearing return statement nor a return
annotation exists. -/
theorem pydoclint_C5 (n : FuncData) (p : Parent) (d : DocStruct) :
    (201 ∈ (checkReturns n p d).map Violation.code ↔
      d.hasReturnsSection = false ∧
        (n.hasReturnStmt = true ∨
          (n.hasReturnAnno = true ∧ n.hasGenAsRetAnno = false))) ∧
    (202 ∈ (checkReturns n p d).map Violation.code ↔
      d.hasReturnsSection = true ∧ n.hasReturnStmt = false ∧
        n.hasReturnAnno = false) := by
  cases h1 : d.hasReturnsSection <;> cases h2 : n.hasReturnStmt <;>
    cases h3 : n.hasReturnAnno <;> cases h4 : n.hasGenAsRetAnno <;>
      simp [checkReturns, h1, h2, h3, h4]

/-- C5 witness: the characterization applied to a concrete function with a
value-bearing return and a sectionless docstring. -/
theorem pydoclint_C5_witness :
    (201 ∈ (checkReturns fC5 Parent.none dC5).map Violation.code ↔
      dC5.hasReturnsSection = false ∧
        (fC5.hasReturnStmt = true ∨
          (fC5.hasReturnAnno = true ∧ fC5.hasGenAsRetAnno = false))) ∧
    (202 ∈ (checkReturns fC5 Parent.none dC5).map Violation.code ↔
      dC5.hasReturnsSection = true ∧ fC5.hasReturnStmt = false ∧
        fC5.hasReturnAnno = false) :=
  pydoclint_C5 fC5 Parent.none dC5

/-- C6: the yield check emits 401 exactly when no "Yields" section is
documented and the return annotation denotes a generator; 402 exactly when no
"Yields" section is documented and the body contains a yield; 403 exactly
when a "Yields" section is documented and the body has neither a yield nor a
generator annotation; 401 and 402 are independent and fire together on the
concrete generator `fC6`. -/
theorem pydoclint_C6 (n : FuncData) (p : Parent) (d : DocStruct) :
    (401 ∈ (checkYields n p d).map Violation.code ↔
      d.hasYieldsSection = false ∧ n.hasGenAsRetAnno = true) ∧
    (402 ∈ (checkYields n p d).map Violation.code ↔
      d.hasYieldsSection = false ∧ n.hasYieldStmt = true) ∧
    (403 ∈ (checkYields n p d).map Violation.code ↔
      d.hasYieldsSection = true ∧ n.hasYieldStmt = false ∧
        n.hasGenAsRetAnno = false) ∧
    (checkYields fC6 Parent.none dC6).map Violation.code = [401, 402] := by
  refine ⟨?_, ?_, ?_, by decide⟩ <;>
    (cases h1 : d.hasYieldsSection <;> cases h2 : n.hasYieldStmt <;>
      cases h3 : n.hasGenAsRetAnno <;> simp [checkYields, h1, h2, h3])

/-- C6 witness: the characterization applied to the concrete generator
function `fC6`. -/
theorem pydoclint_C6_witness :
    (401 ∈ (checkYields fC6 Parent.none dC6).map Violation.code ↔
      dC6.hasYieldsSection = false ∧ fC6.hasGenAsRetAnno = true) ∧
    (402 ∈ (checkYields fC6 Parent.none dC6).map Violation.code ↔
      dC6.hasYieldsSection = false ∧ fC6.hasYieldStmt = true) ∧
    (403 ∈ (checkYields fC6 Parent.none dC6).map Violation.code ↔
      dC6.hasYieldsSection = true ∧ fC6.hasYieldStmt = false ∧
        fC6.hasGenAsRetAnno = false) ∧
    (checkYields fC6 Parent.none dC6).map Violation.code = [401, 402] :=
  pydoclint_C6 fC6 Parent.none dC6

/-- C7: the raise check emits 501 exactly when a raise statement exists and
no "Raises" section is documented, and 502 exactly when a "Raises" section is
documented and no raise statement exists; and when `skipCheckingRaises` is
set, a definition never contributes a 501 or 502 violation. -/
theorem pydoclint_C7 :
    (∀ (n : FuncData) (p : Parent) (d : DocStruct),
      (501 ∈ (checkRaises n p d).map Violation.code ↔
        n.hasRaiseStmt = true ∧ d.hasRaisesSection = false) ∧
      (502 ∈ (checkRaises n p d).map Violation.code ↔
        n.hasRaiseStmt = false ∧ d.hasRaisesSection = true)) ∧
    (∀ (cfg : Config) (p : Parent) (n : FuncData),
      cfg.skipCheckingRaises = true →
      ∀ v ∈ visit_FunctionDef_viols cfg p n, v.code ≠ 501 ∧ v.code ≠ 502) := by
  constructor
  · intro n p d
    cases h1 : n.hasRaiseStmt <;> cases h2 : d.hasRaisesSection <;>
      simp [checkRaises, h1, h2]
  · intro cfg p n hskip v hv
    rcases visit_FunctionDef_viols_mem cfg p n v hv with h | h | h | h | h | h
    · exact ⟨by omega, by omega⟩
    · have h5 := (checkArguments_mem _ _ _ _ _ h).1
      rcases h5 with h5 | h5 | h5 | h5 | h5 <;> exact ⟨by omega, by omega⟩
    · have h5 := (checkReturnsInClassConstructor_mem _ _ _ h.2).1
      exact ⟨by omega, by omega⟩
    · have h5 := (checkReturns_mem _ _ _ _ h.2).1
      rcases h5 with h5 | h5 <;> exact ⟨by omega, by omega⟩
    · have h5 := (checkYields_mem _ _ _ _ h).1
      rcases h5 with h5 | h5 | h5 <;> exact ⟨by omega, by omega⟩
    · rw [hskip] at h
      exact absurd h.1 (by simp)

/-- C8: when the working docstring (after the constructor substitution) is
empty, the four checks are skipped and the definition contributes at most the
code-301 violation. -/
theorem pydoclint_C8 (cfg : Config) (p : Parent) (n : FuncData)
    (h : workingDocstring p n = "") :
    ∀ v ∈ visit_FunctionDef_viols cfg p n, v.code = 301 := by
  intro v hv
  rw [visit_FunctionDef_viols_spec, h] at hv
  simp only [List.mem_append] at hv
  rcases hv with hv | hv
  · split at hv
    · simp only [List.mem_cons, List.not_mem_nil, or_false] at hv
      subst hv
      rfl
    · simp at hv
  · simp at hv

/-- C8 witness: the concrete constructor `fC8` with its own docstring inside
the undocumented class `cC8` contributes exactly its 301 violation. -/
theorem pydoclint_C8_witness :
    workingDocstring (Parent.cls cC8) fC8 = "" ∧
    vC8 ∈ visit_FunctionDef_viols cfgC8 (Parent.cls cC8) fC8 ∧
    vC8.code = 301 :=
  ⟨by decide, by decide,
    pydoclint_C8 cfgC8 (Parent.cls cC8) fC8 (by decide) vC8 (by decide)⟩

/-- C9: with `skipCheckingShortDocstrings` set, a definition whose non-empty
working docstring is short contributes at most a constructor 301; the skip is
tied to the option — with the option unset, the concrete short-documented
function `fC9` is checked and yields violation 201. -/
theorem pydoclint_C9 :
    (∀ (cfg : Config) (p : Parent) (n : FuncData),
      cfg.skipCheckingShortDocstrings = true →
      isShortDocstring (workingDocStruct p n) = true →
      ∀ v ∈ visit_FunctionDef_viols cfg p n, v.code = 301) ∧
    (cfgNoSkipC9.skipCheckingShortDocstrings = false ∧
      isShortDocstring (workingDocStruct Parent.none fC9) = true ∧
      (visit_FunctionDef_viols cfgNoSkipC9 Parent.none fC9).map Violation.code =
        [201]) := by
  constructor
  · intro cfg p n hskip hshort v hv
    have hsk : (cfg.skipCheckingShortDocstrings &&
        isShortDocstring (workingDocStruct p n)) = true := by
      rw [hskip, hshort]
      rfl
    have hret : (workingDocStruct p n).hasReturnsSection = false := by
      simp only [isShortDocstring, Bool.and_eq_true, Bool.not_eq_true'] at hshort
      exact hshort.1.1.1.2
    have hctor : checkReturnsInClassConstructor p (workingDocStruct p n) = [] := by
      simp [checkReturnsInClassConstructor, hret]
    rw [visit_FunctionDef_viols_spec] at hv
    rw [hctor] at hv
    rw [hsk] at hv
    simp at hv
    simp_all
  · exact ⟨rfl, by decide, by decide⟩

/-- C10: running the visitor a second time over the same tree appends a
violation sequence identical to the first run's output, so two runs produce
equal ordered violation lists. -/
theorem pydoclint_C10 (cfg : Config) (tree : NodeList) :
    (visitNodeList cfg (runVisitor cfg tree) tree).violations =
      (runVisitor cfg tree).violations ++ (runVisitor cfg tree).violations := by
  have hp : (runVisitor cfg tree).parent = Parent.none := by
    rw [runVisitor, visitNodeList_run]
  rw [visitNodeList_run cfg (runVisitor cfg tree) tree, hp]
  rfl
